import Mathlib

/-
Shallow embedding of RavEngine's GPU mesh suballocator
(src/src/RenderEngine_Allocate.cpp): AllocateMesh, DeallocateMesh,
ReallocateVertexAllocationToSize, ReallocateIndexAllocationToSize and the
lambdas they contain (findPlacement, getAllocationLocation, consumeRange,
deallocateData).  Machine integers (uint32_t) are modelled as Nat with
explicit reduction modulo 2^32 where the source can wrap; fallible
operations (std::vector::at, which throws, and out-of-bounds operator[],
which is undefined behaviour) are modelled with Option, the none value
standing for the throw or for reaching the undefined read.
-/

namespace RavEngine

/-- Addition of two uint32_t values, wrapping modulo 2^32. -/
def u32add (a b : Nat) : Nat := (a + b) % 4294967296

/-- Subtraction of two uint32_t values, wrapping modulo 2^32. -/
def u32sub (a b : Nat) : Nat :=
  (a % 4294967296 + 4294967296 - b % 4294967296) % 4294967296

/-- The value of (uint32_t)-1, the sentinel the source stores into uint32_t
variables (bestRangeIndex, allocation, foundRangeIndex). -/
def U32MAX : Nat := 4294967295

/-- A contiguous region of a shared buffer: RavEngine's Range, two uint32_t
fields start and count. -/
structure Range where
  start : Nat
  count : Nat
deriving DecidableEq, Repr

/-- The handle AllocateMesh returns: one Range per shared buffer. -/
structure MeshRange where
  vertRange : Range
  indexRange : Range
deriving DecidableEq, Repr

/-- A device buffer created by device->CreateBuffer, identified by a fresh id
drawn from the state's counter, with its byte size.  The usage flags and
stride of the source's CreateBuffer config are constants per call site and
carry no information the claims inspect, so they are not modelled. -/
structure Buffer where
  id : Nat
  size : Nat
deriving DecidableEq, Repr

/-- A buffer-to-buffer copy command recorded on a command buffer.  The
vertex grow path describes such a copy only in a source comment and records
none, so no constructor call of this type ever appears in the model. -/
structure CopyCommand where
  srcId : Nat
  dstId : Nat
  srcOffset : Nat
  dstOffset : Nat
  len : Nat
deriving DecidableEq, Repr

/-- The RenderEngine state the four functions read and write: the two free
lists and two allocated lists, the two current sizes, the two shared buffer
handles (none before any buffer was created), the deferred-destruction queue
gcBuffers, a fresh-id counter for CreateBuffer, the copy commands recorded so
far, how many fence waits were performed, and the UpdateBufferData calls made
(byte size and destination offset). -/
structure RenderState where
  vertexFreeList : List Range
  vertexAllocatedList : List Range
  indexFreeList : List Range
  indexAllocatedList : List Range
  currentVertexSize : Nat
  currentIndexSize : Nat
  sharedVertexBuffer : Option Buffer
  sharedIndexBuffer : Option Buffer
  gcBuffers : List (Option Buffer)
  nextBufferId : Nat
  copyCommands : List CopyCommand
  fenceWaits : Nat
  uploads : List (Nat × Nat)
deriving DecidableEq, Repr

/-- The state the spec's concrete scenario starts from: empty free and
allocated lists, zero-capacity buffers, nothing created, recorded or
enqueued yet. -/
def initialState : RenderState :=
  { vertexFreeList := []
    vertexAllocatedList := []
    indexFreeList := []
    indexAllocatedList := []
    currentVertexSize := 0
    currentIndexSize := 0
    sharedVertexBuffer := none
    sharedIndexBuffer := none
    gcBuffers := []
    nextBufferId := 0
    copyCommands := []
    fenceWaits := 0
    uploads := [] }

/-- The loop of the findPlacement lambda (RenderEngine_Allocate.cpp lines
21-28).  bestRangeIndex is initialised to (uint32_t)-1 and the loop body
reads freeList[bestRangeIndex] before any candidate has been stored into it;
operator[] out of range is undefined behaviour, modelled as the none result.
The first argument of the remaining-iterations list is the sublist of
freeList not yet visited (one loop iteration per element), i is the loop
counter.  When the comparison succeeds the source sets bestRangeIndex to i
and breaks, returning i; when the loop runs out, the sentinel still held in
bestRangeIndex is returned. -/
def findPlacementAux (requestedSize : Nat) (freeList : List Range)
    (bestRangeIndex : Nat) : List Range → Nat → Option Nat
  | [], _ => some bestRangeIndex
  | _ :: rest, i =>
    match freeList.get? bestRangeIndex with
    | none => none
    | some best =>
      if requestedSize ≤ best.count then some i
      else findPlacementAux requestedSize freeList bestRangeIndex rest (i + 1)

/-- The findPlacement lambda: find a free Range fitting requestedSize,
returning (uint32_t)-1 when none exists.  Faithful to the source for free
lists of fewer than 2^32 entries (the loop counter is a uint32_t). -/
def findPlacement (requestedSize : Nat) (freeList : List Range) : Option Nat :=
  findPlacementAux requestedSize freeList U32MAX freeList 0

/-- The in-place compaction loop of ReallocateVertexAllocationToSize (lines
158-164): visits pointers into the allocated list in the order std::sort left
them (given here as the list of element indices `order`), rewrites each
visited Range's start to the running offset, and advances the offset by that
Range's count (uint32_t addition).  An index outside the list would be a
dangling pointer and cannot arise from the source's sortList; it is skipped. -/
def compactGo (lst : List Range) : List Nat → Nat → List Range
  | [], _ => lst
  | idx :: rest, offset =>
    match lst.get? idx with
    | none => compactGo lst rest offset
    | some r => compactGo (lst.set idx { r with start := offset }) rest (u32add offset r.count)

/-- In-place compaction of the allocated list, starting the running offset
at 0, visiting elements in the post-sort pointer order `order`. -/
def compactInPlace (allocatedList : List Range) (order : List Nat) : List Range :=
  compactGo allocatedList order 0

/-- The comparator passed to std::sort in ReallocateVertexAllocationToSize
(lines 148-150): it returns the uint32_t difference of the two start offsets
converted to bool, so it yields true whenever the two starts differ and
false only when they are equal.  Such a comparator is not a strict weak
ordering (it is symmetric on distinct starts), so std::sort's requirements
are violated and the resulting arrangement is not a descending sort; the
model therefore takes the post-sort arrangement as the parameter `order` of
the grow operation. -/
def sortComparator (a b : Range) : Bool :=
  decide (u32sub b.start a.start ≠ 0)

/-- ReallocateVertexAllocationToSize (lines 127-170): enqueues the old
shared vertex buffer on gcBuffers, creates a fresh buffer of newSize bytes,
sets currentVertexSize to newSize, rewrites the allocated Ranges' starts via
the compaction loop in the post-sort order, and performs one fence wait for
the committed command buffer.  The copy described at line 161 is only a
source comment: no copy command is recorded, and the free list is never
touched. -/
def ReallocateVertexAllocationToSize (st : RenderState) (order : List Nat)
    (newSize : Nat) : RenderState :=
  { st with
    gcBuffers := st.gcBuffers ++ [st.sharedVertexBuffer]
    sharedVertexBuffer := some { id := st.nextBufferId, size := newSize }
    nextBufferId := st.nextBufferId + 1
    currentVertexSize := newSize
    vertexAllocatedList := compactInPlace st.vertexAllocatedList order
    fenceWaits := st.fenceWaits + 1 }

/-- ReallocateIndexAllocationToSize (lines 171-180): replaces the shared
index buffer with a fresh buffer of newSize bytes and sets currentIndexSize
to newSize.  Nothing else: the old buffer is not enqueued on gcBuffers, no
command buffer or fence is used, and the index lists are untouched. -/
def ReallocateIndexAllocationToSize (st : RenderState) (newSize : Nat) :
    RenderState :=
  { st with
    sharedIndexBuffer := some { id := st.nextBufferId, size := newSize }
    nextBufferId := st.nextBufferId + 1
    currentIndexSize := newSize }

/-- Outcome of the getAllocationLocation lambda (lines 32-42).  finished:
the do-while loop exited, holding the final value of `allocation` (the exit
condition `while (allocation != -1)` means the loop ends exactly when the
placement search failed, so the held value is always the sentinel) with the
state after any realloc_fn call.  loopsForever: findPlacement found a fit,
the body then changes no state, so the do-while repeats identically without
end.  oobRead: findPlacement reached its undefined out-of-bounds read. -/
inductive LocOutcome where
  | finished (allocation : Nat) (st : RenderState)
  | loopsForever (allocation : Nat) (st : RenderState)
  | oobRead (st : RenderState)
deriving DecidableEq, Repr

/-- getAllocationLocation specialised to the vertex buffer (line 46).  One
iteration decides the loop: when findPlacement returns the sentinel, the
body calls realloc_fn(currentSize + size) and the loop condition
(allocation != -1) is false, so the loop exits at once, never retrying the
search; when findPlacement returns a real index, no state changes and the
condition is true, so the identical iteration repeats forever. -/
def getAllocationLocationVertex (st : RenderState) (size : Nat)
    (order : List Nat) : LocOutcome :=
  match findPlacement size st.vertexFreeList with
  | none => .oobRead st
  | some a =>
    if a = U32MAX then
      .finished U32MAX
        (ReallocateVertexAllocationToSize st order (u32add st.currentVertexSize size))
    else
      .loopsForever a st

/-- getAllocationLocation specialised to the index buffer (line 47). -/
def getAllocationLocationIndex (st : RenderState) (size : Nat) : LocOutcome :=
  match findPlacement size st.indexFreeList with
  | none => .oobRead st
  | some a =>
    if a = U32MAX then
      .finished U32MAX
        (ReallocateIndexAllocationToSize st (u32add st.currentIndexSize size))
    else
      .loopsForever a st

/-- The consumeRange lambda (lines 53-66).  freeList.at(allocation) throws
std::out_of_range for an invalid index, modelled as none.  When the found
Range's count equals the allocated size the Range is erased; the source then
pushes and returns the now-dangling reference rangeToUpdate, undefined
behaviour modelled as the element the memory then holds: the element shifted
into that index by the erase, or the erased value itself when it was the
last element.  Otherwise the Range's start is advanced by allocatedSize
(uint32_t addition) while its count is left unchanged, and that updated
Range is pushed onto the allocated list and returned.  The result is
(returned Range, free list after, allocated list after). -/
def consumeRange (allocation allocatedSize : Nat)
    (freeList allocatedList : List Range) :
    Option (Range × List Range × List Range) :=
  match freeList.get? allocation with
  | none => none
  | some rangeToUpdate =>
    if rangeToUpdate.count = allocatedSize then
      let freeErased := freeList.eraseIdx allocation
      let pushed := (freeErased.get? allocation).getD rangeToUpdate
      some (pushed, freeErased, allocatedList ++ [pushed])
    else
      let updated : Range :=
        { rangeToUpdate with start := u32add rangeToUpdate.start allocatedSize }
      some (updated, freeList.set allocation updated, allocatedList ++ [updated])

/-- Outcome of AllocateMesh: a returned MeshRange with the final state, the
std::out_of_range throw from consumeRange's .at call, the undefined
out-of-bounds read inside findPlacement, or the non-terminating
getAllocationLocation loop. -/
inductive MeshAllocOutcome where
  | ok (result : MeshRange) (st : RenderState)
  | threw (st : RenderState)
  | oobRead (st : RenderState)
  | hangs (st : RenderState)
deriving DecidableEq, Repr

/-- AllocateMesh (lines 10-83): placement search with growth for the vertex
buffer then the index buffer, consumeRange on each, then the two
UpdateBufferData uploads at the returned start offsets.  vertexBytesSize and
indexBytesSize are the byte sizes of the two spans; `order` is the post-sort
arrangement used by a vertex grow, should one happen. -/
def AllocateMesh (st : RenderState) (vertexBytesSize indexBytesSize : Nat)
    (order : List Nat) : MeshAllocOutcome :=
  match getAllocationLocationVertex st vertexBytesSize order with
  | .oobRead s => .oobRead s
  | .loopsForever _ s => .hangs s
  | .finished vertexAllocation s1 =>
    match getAllocationLocationIndex s1 indexBytesSize with
    | .oobRead s => .oobRead s
    | .loopsForever _ s => .hangs s
    | .finished indexAllocation s2 =>
      match consumeRange vertexAllocation vertexBytesSize
          s2.vertexFreeList s2.vertexAllocatedList with
      | none => .threw s2
      | some (vertexPlacement, vFree, vAlloc) =>
        let s3 := { s2 with vertexFreeList := vFree, vertexAllocatedList := vAlloc }
        match consumeRange indexAllocation indexBytesSize
            s3.indexFreeList s3.indexAllocatedList with
        | none => .threw s3
        | some (indexPlacement, iFree, iAlloc) =>
          let s4 := { s3 with
            indexFreeList := iFree
            indexAllocatedList := iAlloc
            uploads := s3.uploads ++
              [(vertexBytesSize, vertexPlacement.start),
               (indexBytesSize, indexPlacement.start)] }
          .ok { vertRange := vertexPlacement, indexRange := indexPlacement } s4

/-- The search loop of the deallocateData lambda (lines 90-99) from loop
counter value i: the first entry at position at least i whose start and
count are both at least those of the freed range.  The counter starts at
(uint32_t)-1, so for allocated lists of fewer than 2^32 entries the entry
condition is false at once and the loop body never runs; this definition
reproduces that because dropping that many elements leaves nothing. -/
def deallocSearchAux (range : Range) : List Range → Nat → Option Nat
  | [], _ => none
  | nextRange :: rest, i =>
    if range.start ≤ nextRange.start ∧ range.count ≤ nextRange.count then some i
    else deallocSearchAux range rest (i + 1)

/-- The deallocateData search loop started at counter value i. -/
def deallocSearch (range : Range) (allocatedList : List Range) (i : Nat) :
    Option Nat :=
  deallocSearchAux range (allocatedList.drop i) i

/-- One iteration of the coalescing loop of deallocateData (lines 105-116)
on a single free-list entry r: when r ends where foundRange starts, r's
count grows by foundRange's count; when foundRange ends where r starts, r's
start moves back by foundRange's count (both uint32_t arithmetic, and the
second test reads r's start, which the first branch does not modify). -/
def coalesceStep (foundRange r : Range) : Range :=
  let r1 :=
    if u32add r.start r.count = foundRange.start then
      { r with count := u32add r.count foundRange.count }
    else r
  if u32add foundRange.start foundRange.count = r1.start then
    { r1 with start := u32sub r1.start foundRange.count }
  else r1

/-- Whether the coalescing loop sets overlapFound on entry r. -/
def coalesceHit (foundRange r : Range) : Bool :=
  decide (u32add r.start r.count = foundRange.start) ||
  decide (u32add foundRange.start foundRange.count = r.start)

/-- The tail of deallocateData (lines 103-119): run the coalescing loop over
every free-list entry with the value held in foundRange, and when no entry
set overlapFound, push the lambda parameter `range` (the loop variable that
shadowed it has gone out of scope at line 118) onto the free list. -/
def insertFree (foundRange range : Range) (freeList : List Range) : List Range :=
  let freeList2 := freeList.map (coalesceStep foundRange)
  if freeList.any (coalesceHit foundRange) then freeList2
  else freeList2 ++ [range]

/-- The deallocateData lambda (lines 88-121).  foundRange is declared
without an initialiser (line 91), so before the search loop stores into it
its value is indeterminate; that indeterminate value is the parameter
`junk`.  Because the loop counter starts at (uint32_t)-1 the search loop
never runs for any allocated list of fewer than 2^32 entries, so foundRange
keeps the value junk, no entry is erased from the allocated list, and the
coalescing plus conditional push runs with junk.  Result: (allocated list
after, free list after). -/
def deallocateData (junk range : Range) (allocatedList freeList : List Range) :
    List Range × List Range :=
  match deallocSearch range allocatedList U32MAX with
  | some i =>
    let foundRange := (allocatedList.get? i).getD junk
    (allocatedList.eraseIdx i, insertFree foundRange range freeList)
  | none => (allocatedList, insertFree junk range freeList)

/-- DeallocateMesh (lines 84-125): deallocateData on the vertex half then on
the index half; junkV and junkI are the indeterminate initial values of the
two foundRange locals. -/
def DeallocateMesh (junkV junkI : Range) (st : RenderState) (mr : MeshRange) :
    RenderState :=
  let v := deallocateData junkV mr.vertRange st.vertexAllocatedList st.vertexFreeList
  let i := deallocateData junkI mr.indexRange st.indexAllocatedList st.indexFreeList
  { st with
    vertexAllocatedList := v.1
    vertexFreeList := v.2
    indexAllocatedList := i.1
    indexFreeList := i.2 }

/-- How many Ranges of the list cover byte p. -/
def coveredCount (rs : List Range) (p : Nat) : Nat :=
  rs.countP (fun r => decide (r.start ≤ p ∧ p < r.start + r.count))

/-- The spec's tiling invariant as a decidable check: every byte of
[0, capacity) is covered by exactly one Range of the combined free and
allocated lists, and every listed Range is nonempty and lies inside the
capacity. -/
def tilesCapacity (free allocated : List Range) (capacity : Nat) : Bool :=
  let all := free ++ allocated
  ((List.range capacity).all fun p => coveredCount all p == 1) &&
  (all.all fun r => decide (0 < r.count ∧ r.start + r.count ≤ capacity))

/-- A sample mid-life state used by several concrete evaluations: capacity
16, two 4-byte allocations at offsets 0 and 8, free holes at 4 and 12. -/
def exSt : RenderState :=
  { initialState with
    vertexAllocatedList := [{ start := 0, count := 4 }, { start := 8, count := 4 }]
    vertexFreeList := [{ start := 4, count := 4 }, { start := 12, count := 4 }]
    currentVertexSize := 16 }

/-- Helper: findPlacement on the empty free list skips its loop entirely and
returns the sentinel still held in bestRangeIndex. -/
theorem findPlacement_nil (requestedSize : Nat) :
    findPlacement requestedSize [] = some U32MAX := rfl

/-- Helper: on any non-empty free list of fewer than 2^32 entries, the first
loop iteration of findPlacement reads freeList[bestRangeIndex] with
bestRangeIndex still the sentinel 2^32 - 1, an out-of-bounds access. -/
theorem findPlacement_none_of_nonempty (requestedSize : Nat)
    (freeList : List Range) (h1 : freeList ≠ [])
    (h2 : freeList.length < 4294967296) :
    findPlacement requestedSize freeList = none := by
  cases freeList with
  | nil => exact absurd rfl h1
  | cons r rest =>
    have hg : (r :: rest).get? U32MAX = none := by
      rw [List.get?_eq_none]
      have : U32MAX = 4294967295 := rfl
      omega
    show findPlacementAux requestedSize (r :: rest) U32MAX (r :: rest) 0 = none
    unfold findPlacementAux
    rw [hg]

/-- Helper: the coalescing pass of deallocateData never shortens the free
list; it rewrites entries in place and at most appends one. -/
theorem insertFree_length_ge (foundRange range : Range) (freeList : List Range) :
    freeList.length ≤ (insertFree foundRange range freeList).length := by
  unfold insertFree
  cases freeList.any (coalesceHit foundRange) <;> simp

/-- Claim C1: the spec's concrete scenario expects AllocateMesh on the empty
initial state with 64 vertex bytes and 24 index bytes to return the ranges
(0,64) and (0,24).  The code instead grows each buffer exactly once (to 64
and to 24 bytes, matching the grow-sizing part of the claim), but growth
never hands the new space to the free list, the inverted do-while exits with
allocation still the sentinel, and freeList.at(sentinel) throws
std::out_of_range: the call completes with the throw outcome, the two free
lists still empty. -/
theorem AllocateMesh_concrete_start_throws :
    AllocateMesh initialState 64 24 [] = .threw
      { vertexFreeList := []
        vertexAllocatedList := []
        indexFreeList := []
        indexAllocatedList := []
        currentVertexSize := 64
        currentIndexSize := 24
        sharedVertexBuffer := some { id := 0, size := 64 }
        sharedIndexBuffer := some { id := 1, size := 24 }
        gcBuffers := [none]
        nextBufferId := 2
        copyCommands := []
        fenceWaits := 1
        uploads := [] } := by
  rfl

/-- Claim C2: the claim says the placement loop ends holding an index of a
fitting free Range, growing by currentCapacity + requestedSize and retrying
until one is found.  In the code the do-while condition is inverted, so on
an empty free list the loop calls the grow operation once with exactly
currentSize + size (that much matches the claim) and then exits immediately
with allocation = 2^32 - 1, the out-of-range sentinel, never holding a
fitting index and never retrying the search. -/
theorem getAllocationLocation_exits_with_sentinel (st : RenderState)
    (size : Nat) (order : List Nat) (h : st.vertexFreeList = []) :
    getAllocationLocationVertex st size order =
      .finished U32MAX
        (ReallocateVertexAllocationToSize st order (u32add st.currentVertexSize size)) := by
  unfold getAllocationLocationVertex
  rw [h]
  rfl

/-- Witness for claim C2's theorem at the empty initial state with a 4-byte
request. -/
theorem getAllocationLocation_exits_with_sentinel_w :
    getAllocationLocationVertex initialState 4 [] =
      .finished U32MAX
        (ReallocateVertexAllocationToSize initialState []
          (u32add initialState.currentVertexSize 4)) :=
  getAllocationLocation_exits_with_sentinel initialState 4 [] rfl

/-- Claim C3: consuming 4 bytes from the free Range (0,10) at index 0.  The
claim expects the free entry to become (4,6) and the entry recorded and
returned to be the consumed sub-range (0,4).  The code advances start but
never reduces count, leaving the free entry (4,10), and pushes and returns
that modified leftover Range rather than the consumed sub-range. -/
theorem consumeRange_records_leftover :
    consumeRange 0 4 [{ start := 0, count := 10 }] [] =
      some ({ start := 4, count := 10 },
        [{ start := 4, count := 10 }], [{ start := 4, count := 10 }]) ∧
    ({ start := 4, count := 10 } : Range) ≠ { start := 0, count := 4 } := by
  decide

/-- Claim C4: deallocating the Range (0,4) whose identical entry is present
in the allocated list.  Whatever indeterminate value the uninitialised
foundRange holds, the search loop (counter starting at the sentinel) never
runs, so the matching entry is not removed from the allocated list; the
passed Range is nevertheless pushed onto the free list, and no assertion or
fatal error exists on any path, so a request with no matching entry silently
mutates the free list instead of failing loudly. -/
theorem deallocateData_removes_nothing (junk : Range) :
    deallocateData junk { start := 0, count := 4 }
      [{ start := 0, count := 4 }] [] =
      ([{ start := 0, count := 4 }], [{ start := 0, count := 4 }]) := by
  rfl

/-- Claim C5: freeing (4,4) between the free Ranges (0,4) and (8,4) must,
per the claim, leave the single coalesced entry (0,12).  In the code the
allocated entry is never removed, the coalescing runs with the
indeterminate foundRange, and the free list keeps at least its two existing
entries, so it is never the single merged Range; moreover even the
coalescing logic run with the correct found Range (4,4) produces the two
overlapping entries (0,8) and (4,4), not one merged entry. -/
theorem deallocateData_no_threeway_merge (junk : Range) :
    (deallocateData junk { start := 4, count := 4 } [{ start := 4, count := 4 }]
        [{ start := 0, count := 4 }, { start := 8, count := 4 }]).1 =
      [{ start := 4, count := 4 }] ∧
    2 ≤ (deallocateData junk { start := 4, count := 4 }
        [{ start := 4, count := 4 }]
        [{ start := 0, count := 4 }, { start := 8, count := 4 }]).2.length ∧
    insertFree { start := 4, count := 4 } { start := 4, count := 4 }
        [{ start := 0, count := 4 }, { start := 8, count := 4 }] =
      [{ start := 0, count := 8 }, { start := 4, count := 4 }] := by
  refine ⟨rfl, ?_, by decide⟩
  exact insertFree_length_ge junk { start := 4, count := 4 }
    [{ start := 0, count := 4 }, { start := 8, count := 4 }]

/-- Claim C6: the tiling invariant holds vacuously on the empty zero-capacity
initial state, but the very first grow operation (to 64 bytes, as triggered
by the spec's concrete scenario) leaves both the free list and the allocated
list empty while the capacity becomes 64, so the union of the two lists no
longer covers a single byte of the interval up to the current capacity: the
invariant is broken by every completed grow. -/
theorem growth_breaks_tiling_invariant :
    tilesCapacity initialState.vertexFreeList initialState.vertexAllocatedList
        initialState.currentVertexSize = true ∧
    (ReallocateVertexAllocationToSize initialState [] 64).currentVertexSize = 64 ∧
    (ReallocateVertexAllocationToSize initialState [] 64).vertexFreeList = [] ∧
    (ReallocateVertexAllocationToSize initialState [] 64).vertexAllocatedList = [] ∧
    tilesCapacity (ReallocateVertexAllocationToSize initialState [] 64).vertexFreeList
        (ReallocateVertexAllocationToSize initialState [] 64).vertexAllocatedList
        (ReallocateVertexAllocationToSize initialState [] 64).currentVertexSize = false := by
  decide

/-- Claim C7: growing the vertex buffer over two live allocations (0,4) and
(8,4).  The old buffer is enqueued on the deferred-destruction queue (that
part of the claim holds), but no buffer-copy command is recorded for any
visited Range (the copy exists only as a source comment), and the std::sort
comparator returns the uint32 difference of the starts converted to bool,
which is true in both directions for these two Ranges, so it is not an
ordering and cannot visit Ranges in descending start order. -/
theorem growVertex_records_no_copy_commands :
    (ReallocateVertexAllocationToSize exSt [1, 0] 32).copyCommands = [] ∧
    (ReallocateVertexAllocationToSize exSt [1, 0] 32).gcBuffers =
      [exSt.sharedVertexBuffer] ∧
    sortComparator { start := 0, count := 4 } { start := 8, count := 4 } = true ∧
    sortComparator { start := 8, count := 4 } { start := 0, count := 4 } = true := by
  decide

/-- Claim C8: after any vertex grow the free list is claimed to be the
single trailing Range from the packed end to the new size.  The grow
operation never touches the vertex free list at all (the compaction of free
space is a TODO comment in the source): growing exSt (packed end 8) to 32
bytes leaves the two old holes (4,4) and (12,4) in place instead of the
single Range (8,24). -/
theorem growVertex_leaves_free_list_unchanged :
    (∀ (st : RenderState) (order : List Nat) (newSize : Nat),
      (ReallocateVertexAllocationToSize st order newSize).vertexFreeList =
        st.vertexFreeList) ∧
    (ReallocateVertexAllocationToSize exSt [1, 0] 32).vertexFreeList =
      [{ start := 4, count := 4 }, { start := 12, count := 4 }] ∧
    (ReallocateVertexAllocationToSize exSt [1, 0] 32).vertexFreeList ≠
      [{ start := 8, count := 24 }] := by
  exact ⟨fun st order newSize => rfl, by decide, by decide⟩

/-- Claim C9 counterexample: on the empty free list the search loop of
findPlacement never executes, so no indexing happens at all: the result is
the sentinel, not the indexing error branch the claim says is reached on an
empty free list. -/
theorem findPlacement_empty_returns_sentinel :
    findPlacement 5 [] = some U32MAX ∧ findPlacement 5 ([] : List Range) ≠ none := by
  decide

/-- Claim C9 as amended: the search does initialise its best-candidate index
to the out-of-range sentinel and compares against the entry at that index
before any valid candidate exists, but the resulting out-of-bounds read
happens on every NON-empty free list (of fewer than 2^32 entries), on the
very first iteration; on an empty free list the loop body never runs and the
sentinel is returned without any read. -/
theorem findPlacement_oob_on_nonempty (requestedSize : Nat)
    (freeList : List Range) (h1 : freeList ≠ [])
    (h2 : freeList.length < 4294967296) :
    findPlacement requestedSize freeList = none :=
  findPlacement_none_of_nonempty requestedSize freeList h1 h2

/-- Witness for claim C9's amended theorem on a one-entry free list. -/
theorem findPlacement_oob_on_nonempty_w :
    findPlacement 5 [{ start := 0, count := 4 }] = none :=
  findPlacement_oob_on_nonempty 5 [{ start := 0, count := 4 }]
    (by decide) (by decide)

/-- Claim C10: growing the index buffer replaces the shared index buffer with
a freshly created buffer of the requested size and sets the current index
size, and changes nothing else: both index lists, the deferred-destruction
queue, the recorded copy commands, the fence-wait count, the uploads and all
vertex state are untouched — in contrast with the vertex grow path, which
does enqueue its old buffer on the deferred-destruction queue. -/
theorem ReallocateIndex_touches_only_buffer_and_size (st : RenderState)
    (newSize : Nat) :
    (ReallocateIndexAllocationToSize st newSize).indexFreeList = st.indexFreeList ∧
    (ReallocateIndexAllocationToSize st newSize).indexAllocatedList =
      st.indexAllocatedList ∧
    (ReallocateIndexAllocationToSize st newSize).gcBuffers = st.gcBuffers ∧
    (ReallocateIndexAllocationToSize st newSize).copyCommands = st.copyCommands ∧
    (ReallocateIndexAllocationToSize st newSize).fenceWaits = st.fenceWaits ∧
    (ReallocateIndexAllocationToSize st newSize).uploads = st.uploads ∧
    (ReallocateIndexAllocationToSize st newSize).vertexFreeList = st.vertexFreeList ∧
    (ReallocateIndexAllocationToSize st newSize).vertexAllocatedList =
      st.vertexAllocatedList ∧
    (ReallocateIndexAllocationToSize st newSize).currentVertexSize =
      st.currentVertexSize ∧
    (ReallocateIndexAllocationToSize st newSize).sharedVertexBuffer =
      st.sharedVertexBuffer ∧
    (ReallocateIndexAllocationToSize st newSize).currentIndexSize = newSize ∧
    (ReallocateIndexAllocationToSize st newSize).sharedIndexBuffer =
      some { id := st.nextBufferId, size := newSize } ∧
    (∀ (st2 : RenderState) (order : List Nat) (ns : Nat),
      (ReallocateVertexAllocationToSize st2 order ns).gcBuffers =
        st2.gcBuffers ++ [st2.sharedVertexBuffer]) := by
  exact ⟨rfl, rfl, rfl, rfl, rfl, rfl, rfl, rfl, rfl, rfl, rfl, rfl,
    fun st2 order ns => rfl⟩

end RavEngine
